import Mathlib

/-!
Shallow embedding of the libosmium core under verification:
src/include/osmium/io/file.hpp (class OSMFile) and
src/include/osmium/io/xml_output.hpp (class XMLOutput).

File descriptors are modelled as integers, the operating system effects of
a close call as an explicit event list, and the XML writer as a function
from records to the list of element/attribute events it hands to the
underlying libxml text writer.
-/

namespace Osmium

/-- Modelled from the spec: the FileType enumeration lives in
osmium/io/file_type.hpp, which is not part of the sources given; the spec
lists exactly three kinds: Plain (called OSM in the code), History and
Change. -/
inductive FileType where
  | OSM
  | History
  | Change
deriving DecidableEq, Fintype

/-- Modelled from the spec: the Encoding values live in
osmium/io/encoding.hpp, which is not part of the sources given; the suffix
table of file.hpp names exactly these seven encodings. -/
inductive Encoding where
  | PBF
  | XML
  | XMLgz
  | XMLbz2
  | OPL
  | OPLgz
  | OPLbz2
deriving DecidableEq, Fintype

/-- Modelled from the spec: FileType::has_multiple_object_versions from
file_type.hpp is not under src. The spec says History files may contain
multiple versions per entity; a Change file also carries edits to several
versions, and the guard in write_meta (xml_output.hpp line 212) that
excludes the Change kind on top of this predicate shows the code expects
it to hold for Change as well. Plain (OSM) files are snapshots. -/
def FileType.has_multiple_object_versions : FileType → Bool
  | .OSM => false
  | .History => true
  | .Change => true

/-- Modelled from the spec: Encoding::decompress from encoding.hpp is not
under src. The spec says the gz encodings use a gzip filter and the bz2
encodings a bzip2 filter; the uncompressed encodings have no filter, which
the code represents as the empty string. -/
def Encoding.decompress : Encoding → String
  | .XMLgz => "gzcat"
  | .OPLgz => "gzcat"
  | .XMLbz2 => "bzcat"
  | .OPLbz2 => "bzcat"
  | _ => ""

/-- Modelled from the spec: Encoding::compress from encoding.hpp is not
under src; same filter assignment as for decompression, write direction. -/
def Encoding.compress : Encoding → String
  | .XMLgz => "gzip"
  | .OPLgz => "gzip"
  | .XMLbz2 => "bzip2"
  | .OPLbz2 => "bzip2"
  | _ => ""

/-- OSMFile::default_settings_for_file, file.hpp lines 467-470. -/
def default_settings_for_file : FileType × Encoding :=
  (FileType.OSM, Encoding.PBF)

/-- OSMFile::default_settings_for_stdinout, file.hpp lines 457-460. -/
def default_settings_for_stdinout : FileType × Encoding :=
  (FileType.OSM, Encoding.PBF)

/-- OSMFile::default_settings_for_url, file.hpp lines 477-480. -/
def default_settings_for_url : FileType × Encoding :=
  (FileType.OSM, Encoding.XML)

/-- OSMFile::set_type_and_encoding, file.hpp lines 350-396: the fixed
suffix table, falling back to default_settings_for_file. -/
def set_type_and_encoding (suffix : String) : FileType × Encoding :=
  if suffix = "pbf" ∨ suffix = "osm.pbf" then (FileType.OSM, Encoding.PBF)
  else if suffix = "osm" then (FileType.OSM, Encoding.XML)
  else if suffix = "osm.bz2" then (FileType.OSM, Encoding.XMLbz2)
  else if suffix = "osm.gz" then (FileType.OSM, Encoding.XMLgz)
  else if suffix = "osm.opl" then (FileType.OSM, Encoding.OPL)
  else if suffix = "osm.opl.bz2" then (FileType.OSM, Encoding.OPLbz2)
  else if suffix = "osm.opl.gz" then (FileType.OSM, Encoding.OPLgz)
  else if suffix = "osh.pbf" then (FileType.History, Encoding.PBF)
  else if suffix = "osh" then (FileType.History, Encoding.XML)
  else if suffix = "osh.bz2" then (FileType.History, Encoding.XMLbz2)
  else if suffix = "osh.gz" then (FileType.History, Encoding.XMLgz)
  else if suffix = "osc" then (FileType.Change, Encoding.XML)
  else if suffix = "osc.bz2" then (FileType.Change, Encoding.XMLbz2)
  else if suffix = "osc.gz" then (FileType.Change, Encoding.XMLgz)
  else default_settings_for_file

/-- The fifteen suffixes handled by set_type_and_encoding before its
default branch. -/
def suffix_table : List String :=
  ["pbf", "osm.pbf", "osm", "osm.bz2", "osm.gz", "osm.opl", "osm.opl.bz2",
   "osm.opl.gz", "osh.pbf", "osh", "osh.bz2", "osh.gz", "osc", "osc.bz2",
   "osc.gz"]

/-- First index at which character c occurs, as std::string::find_first_of
with a single search character: none plays the role of npos. -/
def find_first_aux (c : Char) : List Char → Option Nat
  | [] => none
  | x :: rest => if x = c then some 0 else (find_first_aux c rest).map (· + 1)

/-- std::string::find_first_of(c, pos): first index at or after pos
holding c. -/
def find_first_of_from (c : Char) (pos : Nat) (l : List Char) : Option Nat :=
  (find_first_aux c (l.drop pos)).map (fun k => pos + k)

/-- std::string::find_last_of(c): last index holding c. -/
def find_last_of (c : Char) (l : List Char) : Option Nat :=
  (find_first_aux c l.reverse).map (fun k => l.length - 1 - k)

/-- The position n computed by the OSMFile constructor, file.hpp lines
339-344: one past the last slash, or 0 when there is no slash. -/
def after_last_slash (l : List Char) : Nat :=
  match find_last_of '/' l with
  | none => 0
  | some k => k + 1

/-- The suffix isolation of the OSMFile constructor, file.hpp line 345:
substr(find_first_of(dot, n) + 1). When no dot occurs at or after n,
find_first_of yields npos and npos + 1 wraps to 0, so the entire filename
becomes the suffix. -/
def isolate_suffix (l : List Char) : List Char :=
  l.drop (match find_first_of_from '.' (after_last_slash l) l with
    | none => 0
    | some i => i + 1)

/-- The protocol extraction of file.hpp lines 299 and 332:
substr(0, find_first_of(colon)); with no colon, npos makes substr return
the whole string, which takeWhile reproduces. -/
def protocol_of (l : List Char) : List Char :=
  l.takeWhile (fun c => c ≠ ':')

/-- The fields of class OSMFile, file.hpp lines 170-189: resolved type and
encoding, the filename, the descriptor (-1 before opening) and the child
process id (0 when no child exists). -/
structure OSMFileR where
  m_type : FileType
  m_encoding : Encoding
  m_filename : String
  m_fd : Int
  m_childpid : Nat
deriving DecidableEq

/-- The OSMFile constructor, file.hpp lines 317-348: stdin/stdout
sentinel, URL branch, and suffix resolution through
set_type_and_encoding. -/
def OSMFile_init (filename : String) : OSMFileR :=
  if filename = "" ∨ filename = "-" then
    { m_type := default_settings_for_stdinout.1,
      m_encoding := default_settings_for_stdinout.2,
      m_filename := "", m_fd := -1, m_childpid := 0 }
  else if protocol_of filename.data = "http".data
       ∨ protocol_of filename.data = "https".data then
    { m_type := default_settings_for_url.1,
      m_encoding := default_settings_for_url.2,
      m_filename := filename, m_fd := -1, m_childpid := 0 }
  else
    let te := set_type_and_encoding (String.mk (isolate_suffix filename.data))
    { m_type := te.1, m_encoding := te.2,
      m_filename := filename, m_fd := -1, m_childpid := 0 }

/-- Outcome of the single waitpid call inside OSMFile::close: the call
itself can fail (negative pid), or report that the child exited with a
code (WIFEXITED), or report abnormal termination. -/
inductive WaitResult where
  | failed
  | exited (code : Nat)
  | signaled
deriving DecidableEq

/-- Observable result of OSMFile::close: the final field state, the
descriptors passed to the close system call, and whether an IOError was
thrown. -/
structure CloseOut where
  state : OSMFileR
  closed_fds : List Int
  io_error : Bool
deriving DecidableEq

/-- OSMFile::close, file.hpp lines 433-450. The descriptor is released
only when strictly positive. When a child pid is recorded, waitpid is
consulted; on anything but a normal exit with status 0 an IOError is
thrown, and that throw happens before the line clearing m_childpid, so a
failing close leaves the child pid recorded. -/
def OSMFile_close (w : WaitResult) (s : OSMFileR) : CloseOut :=
  let fd_events := if 0 < s.m_fd then [s.m_fd] else []
  let s1 := if 0 < s.m_fd then { s with m_fd := -1 } else s
  if s1.m_childpid ≠ 0 then
    match w with
    | WaitResult.exited 0 =>
      { state := { s1 with m_childpid := 0 }, closed_fds := fd_events,
        io_error := false }
    | _ =>
      { state := s1, closed_fds := fd_events, io_error := true }
  else
    { state := s1, closed_fds := fd_events, io_error := false }

/-- Abstraction of the operating system effects consulted by the open
path: the descriptor an open system call would return for a nonempty
path, whether pipe and fork succeed, the two pipe endpoints, and the
forked child pid. -/
structure IOEnv where
  os_open_fd : Int
  pipe_ok : Bool
  fork_ok : Bool
  pipe_read_fd : Int
  pipe_write_fd : Int
  child_pid : Nat
deriving DecidableEq

/-- Errors raised along the open path: IOError from a failing direct open,
SystemError from a failing pipe or fork. -/
inductive OpenError where
  | io_error
  | system_error
deriving DecidableEq

/-- OSMFile::execute, file.hpp lines 202-242, parent side: pipe and fork
may fail with SystemError; on success the child pid is recorded and the
requested pipe endpoint returned (input 0 reads from the child, input 1
writes to it). The command string is what would be executed in the
child. -/
def execute (env : IOEnv) (_command : String) (input : Nat) (s : OSMFileR) :
    Except OpenError (OSMFileR × Int) :=
  if ¬env.pipe_ok then Except.error OpenError.system_error
  else if ¬env.fork_ok then Except.error OpenError.system_error
  else Except.ok ({ s with m_childpid := env.child_pid },
    if input = 0 then env.pipe_read_fd else env.pipe_write_fd)

/-- OSMFile::open_input_file, file.hpp lines 250-264: an empty filename
stands for stdin, descriptor 0; otherwise the path is opened and a
negative result raises IOError. -/
def open_input_file (env : IOEnv) (s : OSMFileR) : Except OpenError Int :=
  if s.m_filename = "" then Except.ok 0
  else if env.os_open_fd < 0 then Except.error OpenError.io_error
  else Except.ok env.os_open_fd

/-- OSMFile::open_output_file, file.hpp lines 273-287: an empty filename
stands for stdout, descriptor 1; otherwise the path is created or
truncated and a negative result raises IOError. -/
def open_output_file (env : IOEnv) (s : OSMFileR) : Except OpenError Int :=
  if s.m_filename = "" then Except.ok 1
  else if env.os_open_fd < 0 then Except.error OpenError.io_error
  else Except.ok env.os_open_fd

/-- OSMFile::open_input_file_or_url, file.hpp lines 298-305. -/
def open_input_file_or_url (env : IOEnv) (s : OSMFileR) :
    Except OpenError (OSMFileR × Int) :=
  if protocol_of s.m_filename.data = "http".data
     ∨ protocol_of s.m_filename.data = "https".data then
    execute env "curl" 0 s
  else
    (open_input_file env s).map (fun fd => (s, fd))

/-- OSMFile::open_for_input, file.hpp lines 565-567. -/
def open_for_input (env : IOEnv) (s : OSMFileR) : Except OpenError OSMFileR :=
  if s.m_encoding.decompress = "" then
    (open_input_file_or_url env s).map (fun p => { p.1 with m_fd := p.2 })
  else
    (execute env s.m_encoding.decompress 0 s).map
      (fun p => { p.1 with m_fd := p.2 })

/-- OSMFile::open_for_output, file.hpp lines 569-571. -/
def open_for_output (env : IOEnv) (s : OSMFileR) : Except OpenError OSMFileR :=
  if s.m_encoding.compress = "" then
    (open_output_file env s).map (fun fd => { s with m_fd := fd })
  else
    (execute env s.m_encoding.compress 1 s).map
      (fun p => { p.1 with m_fd := p.2 })

/-- The events the XMLOutput writer hands to the libxml text writer:
element starts, attribute writes (the attribute name identifies the call
site; values are abstracted) and element ends. Each EndElement call in the
source closes a statically known element, whose name the event records. -/
inductive XmlEvent where
  | start_element (name : String)
  | attribute (name : String)
  | end_element (name : String)
deriving DecidableEq

/-- The change operation characters used by xml_output.hpp: c, m and d.
The null character used for "no operation" is modelled by Option. -/
inductive ChangeOp where
  | create
  | modify
  | delete
deriving DecidableEq, Fintype

/-- The wrapper element name the switch in open_close_op_tag opens for
each operation character, xml_output.hpp lines 235-245. -/
def op_tag_name : ChangeOp → String
  | ChangeOp.create => "create"
  | ChangeOp.modify => "modify"
  | ChangeOp.delete => "delete"

/-- XMLOutput::open_close_op_tag, xml_output.hpp lines 226-248: a no-op
when op equals m_last_op; otherwise the open wrapper (if any) is closed,
the wrapper for op (if op is not the null character) is opened, and
m_last_op becomes op. Returns the emitted events and the new m_last_op. -/
def open_close_op_tag (op : Option ChangeOp) (m_last_op : Option ChangeOp) :
    List XmlEvent × Option ChangeOp :=
  if op = m_last_op then ([], m_last_op)
  else
    ((match m_last_op with
      | some prev => [XmlEvent.end_element (op_tag_name prev)]
      | none => [])
     ++
     (match op with
      | some o => [XmlEvent.start_element (op_tag_name o)]
      | none => []),
     op)

/-- The attribute fields shared by Node, Way and Relation and read by
write_meta: id, version, timestamp, uid, user, changeset and the
visibility flag. -/
structure ObjMeta where
  id : Int
  version : Nat
  timestamp : Nat
  uid : Int
  user : String
  changeset : Int
  visible : Bool
deriving DecidableEq

/-- A node as consumed by XMLOutput::node: shared meta, whether its
location is defined, and its tag list. -/
structure Node where
  meta : ObjMeta
  location_defined : Bool
  tags : List (String × String)
deriving DecidableEq

/-- A way as consumed by XMLOutput::way: shared meta, referenced node ids
and tags. -/
structure Way where
  meta : ObjMeta
  nodes : List Int
  tags : List (String × String)
deriving DecidableEq

/-- A relation member: type name, referenced id and role. -/
structure RelMember where
  mtype : String
  ref : Int
  role : String
deriving DecidableEq

/-- A relation as consumed by XMLOutput::relation. -/
structure Relation where
  meta : ObjMeta
  members : List RelMember
  tags : List (String × String)
deriving DecidableEq

/-- The operation character computed inline at the three call sites of
open_close_op_tag, xml_output.hpp lines 120, 138 and 157:
visible ? (version == 1 ? c : m) : d. -/
def change_op (o : ObjMeta) : ChangeOp :=
  if o.visible then
    (if o.version = 1 then ChangeOp.create else ChangeOp.modify)
  else ChangeOp.delete

/-- XMLOutput::write_meta, xml_output.hpp lines 193-215: id always;
version, timestamp and changeset only when nonzero; uid and user only
when uid is positive; visible only when the file type has multiple object
versions and is not the Change type. -/
def write_meta (ft : FileType) (o : ObjMeta) : List XmlEvent :=
  [XmlEvent.attribute "id"]
  ++ (if o.version ≠ 0 then [XmlEvent.attribute "version"] else [])
  ++ (if o.timestamp ≠ 0 then [XmlEvent.attribute "timestamp"] else [])
  ++ (if 0 < o.uid then [XmlEvent.attribute "uid", XmlEvent.attribute "user"]
      else [])
  ++ (if o.changeset ≠ 0 then [XmlEvent.attribute "changeset"] else [])
  ++ (if ft.has_multiple_object_versions ∧ ft ≠ FileType.Change then
        [XmlEvent.attribute "visible"] else [])

/-- XMLOutput::write_tags, xml_output.hpp lines 217-224: one tag element
with k and v attributes per tag. -/
def write_tags : List (String × String) → List XmlEvent
  | [] => []
  | _ :: rest =>
    XmlEvent.start_element "tag" :: XmlEvent.attribute "k"
      :: XmlEvent.attribute "v" :: XmlEvent.end_element "tag"
      :: write_tags rest

/-- The nd child elements of XMLOutput::way, xml_output.hpp lines
144-148. -/
def way_nd_events : List Int → List XmlEvent
  | [] => []
  | _ :: rest =>
    XmlEvent.start_element "nd" :: XmlEvent.attribute "ref"
      :: XmlEvent.end_element "nd" :: way_nd_events rest

/-- The member child elements of XMLOutput::relation, xml_output.hpp
lines 163-171. -/
def relation_member_events : List RelMember → List XmlEvent
  | [] => []
  | _ :: rest =>
    XmlEvent.start_element "member" :: XmlEvent.attribute "type"
      :: XmlEvent.attribute "ref" :: XmlEvent.attribute "role"
      :: XmlEvent.end_element "member" :: relation_member_events rest

/-- XMLOutput::node, xml_output.hpp lines 118-134: for a Change file the
grouping transition runs first with the inferred operation; then the node
element with meta attributes, lat and lon when the location is defined,
and the tag list. Returns the events and the new m_last_op. -/
def XMLOutput_node (ft : FileType) (n : Node) (last : Option ChangeOp) :
    List XmlEvent × Option ChangeOp :=
  let t := if ft = FileType.Change then
      open_close_op_tag (some (change_op n.meta)) last
    else ([], last)
  (t.1 ++ [XmlEvent.start_element "node"]
    ++ write_meta ft n.meta
    ++ (if n.location_defined then
          [XmlEvent.attribute "lat", XmlEvent.attribute "lon"] else [])
    ++ write_tags n.tags
    ++ [XmlEvent.end_element "node"], t.2)

/-- XMLOutput::way, xml_output.hpp lines 136-153. -/
def XMLOutput_way (ft : FileType) (w : Way) (last : Option ChangeOp) :
    List XmlEvent × Option ChangeOp :=
  let t := if ft = FileType.Change then
      open_close_op_tag (some (change_op w.meta)) last
    else ([], last)
  (t.1 ++ [XmlEvent.start_element "way"]
    ++ write_meta ft w.meta
    ++ way_nd_events w.nodes
    ++ write_tags w.tags
    ++ [XmlEvent.end_element "way"], t.2)

/-- XMLOutput::relation, xml_output.hpp lines 155-176. -/
def XMLOutput_relation (ft : FileType) (r : Relation) (last : Option ChangeOp) :
    List XmlEvent × Option ChangeOp :=
  let t := if ft = FileType.Change then
      open_close_op_tag (some (change_op r.meta)) last
    else ([], last)
  (t.1 ++ [XmlEvent.start_element "relation"]
    ++ write_meta ft r.meta
    ++ relation_member_events r.members
    ++ write_tags r.tags
    ++ [XmlEvent.end_element "relation"], t.2)

/-- XMLOutput::set_meta, xml_output.hpp lines 94-116: root element
(osmChange for the Change type, osm otherwise) with version and generator
attributes, and an optional bounds element. -/
def XMLOutput_set_meta (ft : FileType) (bounds_defined : Bool) :
    List XmlEvent :=
  [XmlEvent.start_element
      (if ft = FileType.Change then "osmChange" else "osm"),
   XmlEvent.attribute "version", XmlEvent.attribute "generator"]
  ++ (if bounds_defined then
        [XmlEvent.start_element "bounds", XmlEvent.attribute "minlon",
         XmlEvent.attribute "minlat", XmlEvent.attribute "maxlon",
         XmlEvent.attribute "maxlat", XmlEvent.end_element "bounds"]
      else [])

/-- XMLOutput::close, xml_output.hpp lines 178-185: for a Change file a
final grouping transition to the null operation, then the root element is
closed. -/
def XMLOutput_close (ft : FileType) (last : Option ChangeOp) :
    List XmlEvent × Option ChangeOp :=
  let t := if ft = FileType.Change then open_close_op_tag none last
    else ([], last)
  (t.1 ++ [XmlEvent.end_element
      (if ft = FileType.Change then "osmChange" else "osm")], t.2)

/-- A record handed to the writer: one of the three typed shapes. -/
inductive Record where
  | node (n : Node)
  | way (w : Way)
  | relation (r : Relation)
deriving DecidableEq

/-- Dispatch of a record to the matching XMLOutput member function. -/
def emit_record (ft : FileType) (r : Record) (last : Option ChangeOp) :
    List XmlEvent × Option ChangeOp :=
  match r with
  | Record.node n => XMLOutput_node ft n last
  | Record.way w => XMLOutput_way ft w last
  | Record.relation r => XMLOutput_relation ft r last

/-- Emission of a record sequence, threading m_last_op. -/
def emit_records (ft : FileType) (rs : List Record) (last : Option ChangeOp) :
    List XmlEvent × Option ChangeOp :=
  match rs with
  | [] => ([], last)
  | r :: rest =>
    let t := emit_record ft r last
    let u := emit_records ft rest t.2
    (t.1 ++ u.1, u.2)

/-- The inferred operation of a record. -/
def record_op : Record → ChangeOp
  | Record.node n => change_op n.meta
  | Record.way w => change_op w.meta
  | Record.relation r => change_op r.meta

/-- The full event trace of a writer session: set_meta once, the record
sequence starting from the null m_last_op of the constructor
(xml_output.hpp line 84), then close. -/
def write_document (ft : FileType) (bounds_defined : Bool)
    (rs : List Record) : List XmlEvent :=
  XMLOutput_set_meta ft bounds_defined
    ++ (emit_records ft rs none).1
    ++ (XMLOutput_close ft (emit_records ft rs none).2).1

/-- An event that opens a grouping wrapper element. -/
def is_wrapper_open (e : XmlEvent) : Bool :=
  match e with
  | XmlEvent.start_element n =>
    decide (n = "create" ∨ n = "modify" ∨ n = "delete")
  | _ => false

/-- An event that closes a grouping wrapper element. -/
def is_wrapper_close (e : XmlEvent) : Bool :=
  match e with
  | XmlEvent.end_element n =>
    decide (n = "create" ∨ n = "modify" ∨ n = "delete")
  | _ => false

/-- Number of wrapper-open events in a trace. -/
def wrapper_opens (t : List XmlEvent) : Nat :=
  t.countP is_wrapper_open

/-- Number of wrapper-close events in a trace. -/
def wrapper_closes (t : List XmlEvent) : Nat :=
  t.countP is_wrapper_close

/-- Number of maximal runs of equal adjacent operations. -/
def run_count : List ChangeOp → Nat
  | [] => 0
  | [_] => 1
  | a :: b :: rest => (if a = b then 0 else 1) + run_count (b :: rest)

/-- Wrapper opens the grouping state machine performs on an operation
sequence starting from a given m_last_op. -/
def opens_from (last : Option ChangeOp) : List ChangeOp → Nat
  | [] => 0
  | a :: rest =>
    (if some a = last then 0 else 1) + opens_from (some a) rest

/-- Wrapper closes the grouping state machine performs on an operation
sequence starting from a given m_last_op. -/
def closes_from (last : Option ChangeOp) : List ChangeOp → Nat
  | [] => 0
  | a :: rest =>
    (if some a = last then 0 else if last = none then 0 else 1)
      + closes_from (some a) rest

/-- Value of m_last_op after an operation sequence. -/
def last_from (last : Option ChangeOp) : List ChangeOp → Option ChangeOp
  | [] => last
  | a :: rest => last_from (some a) rest

/-- Events relevant for the grouping claim: wrapper opens and closes, and
the start of any record element. -/
def is_group_event (e : XmlEvent) : Bool :=
  is_wrapper_open e || is_wrapper_close e ||
  (match e with
   | XmlEvent.start_element n =>
     decide (n = "node" ∨ n = "way" ∨ n = "relation")
   | _ => false)

/-- The subtrace of grouping-relevant events. -/
def group_trace (t : List XmlEvent) : List XmlEvent :=
  t.filter is_group_event

/-- A meta record with the given version and visibility and empty
optional fields. -/
def mk_meta (version : Nat) (visible : Bool) : ObjMeta :=
  { id := 1, version := version, timestamp := 0, uid := 0, user := "",
    changeset := 0, visible := visible }

/-- A node record with the given version and visibility. -/
def mk_node (version : Nat) (visible : Bool) : Record :=
  Record.node { meta := mk_meta version visible, location_defined := false,
                tags := [] }

/-- Five records whose inferred operations are create, create, modify,
delete, delete. -/
def example_records : List Record :=
  [mk_node 1 true, mk_node 1 true, mk_node 2 true,
   mk_node 5 false, mk_node 1 false]

/-- Transcription of the spec sentence for the grouping transition, close
half: if a group is currently open and op differs from its operation,
close its wrapper element. -/
def spec_transition_closes (op m_last_op : Option ChangeOp) :
    List XmlEvent :=
  match m_last_op with
  | some prev =>
    if op = some prev then [] else [XmlEvent.end_element (op_tag_name prev)]
  | none => []

/-- Transcription of the spec sentence for the grouping transition, open
half: if op is not none and differs from the tracked operation, open a
new wrapper element named after op. -/
def spec_transition_opens (op m_last_op : Option ChangeOp) :
    List XmlEvent :=
  match op with
  | some o =>
    if some o = m_last_op then []
    else [XmlEvent.start_element (op_tag_name o)]
  | none => []

/-! Helper lemmas about the grouping state machine and the event trace. -/

theorem op_tag_snd : ∀ (op last : Option ChangeOp),
    (open_close_op_tag op last).2 = op := by decide

theorem op_tag_opens_count : ∀ (a : ChangeOp) (last : Option ChangeOp),
    wrapper_opens (open_close_op_tag (some a) last).1
      = (if some a = last then 0 else 1) := by decide

theorem op_tag_closes_count : ∀ (a : ChangeOp) (last : Option ChangeOp),
    wrapper_closes (open_close_op_tag (some a) last).1
      = (if some a = last then 0 else if last = none then 0 else 1) := by
  decide

theorem op_tag_final_counts : ∀ (last : Option ChangeOp),
    wrapper_opens (open_close_op_tag none last).1 = 0
    ∧ wrapper_closes (open_close_op_tag none last).1
        = (if last = none then 0 else 1) := by decide

theorem wrapper_opens_append (t u : List XmlEvent) :
    wrapper_opens (t ++ u) = wrapper_opens t + wrapper_opens u := by
  simp [wrapper_opens, List.countP_append]

theorem wrapper_closes_append (t u : List XmlEvent) :
    wrapper_closes (t ++ u) = wrapper_closes t + wrapper_closes u := by
  simp [wrapper_closes, List.countP_append]

theorem wrapper_opens_nil : wrapper_opens [] = 0 := rfl

theorem wrapper_closes_nil : wrapper_closes [] = 0 := rfl

theorem wrapper_opens_cons (e : XmlEvent) (t : List XmlEvent) :
    wrapper_opens (e :: t)
      = wrapper_opens t + (if is_wrapper_open e then 1 else 0) := by
  simp [wrapper_opens, List.countP_cons]

theorem wrapper_closes_cons (e : XmlEvent) (t : List XmlEvent) :
    wrapper_closes (e :: t)
      = wrapper_closes t + (if is_wrapper_close e then 1 else 0) := by
  simp [wrapper_closes, List.countP_cons]

theorem wrapper_opens_write_meta (ft : FileType) (o : ObjMeta) :
    wrapper_opens (write_meta ft o) = 0 := by
  simp only [wrapper_opens, List.countP_eq_zero]
  intro e he
  rcases e with nm | nm | nm
  · simp [write_meta] at he
  · simp [is_wrapper_open]
  · simp [is_wrapper_open]

theorem wrapper_closes_write_meta (ft : FileType) (o : ObjMeta) :
    wrapper_closes (write_meta ft o) = 0 := by
  simp only [wrapper_closes, List.countP_eq_zero]
  intro e he
  rcases e with nm | nm | nm
  · simp [is_wrapper_close]
  · simp [is_wrapper_close]
  · simp [write_meta] at he

theorem wrapper_opens_write_tags (ts : List (String × String)) :
    wrapper_opens (write_tags ts) = 0 := by
  induction ts with
  | nil => simp [write_tags, wrapper_opens]
  | cons t rest ih =>
    simp [write_tags, wrapper_opens, List.countP_cons, is_wrapper_open] at ih ⊢
    exact ih

theorem wrapper_closes_write_tags (ts : List (String × String)) :
    wrapper_closes (write_tags ts) = 0 := by
  induction ts with
  | nil => simp [write_tags, wrapper_closes]
  | cons t rest ih =>
    simp [write_tags, wrapper_closes, List.countP_cons, is_wrapper_close] at ih ⊢
    exact ih

theorem wrapper_opens_way_nd (ns : List Int) :
    wrapper_opens (way_nd_events ns) = 0 := by
  induction ns with
  | nil => simp [way_nd_events, wrapper_opens]
  | cons x rest ih =>
    simp [way_nd_events, wrapper_opens, List.countP_cons, is_wrapper_open] at ih ⊢
    exact ih

theorem wrapper_closes_way_nd (ns : List Int) :
    wrapper_closes (way_nd_events ns) = 0 := by
  induction ns with
  | nil => simp [way_nd_events, wrapper_closes]
  | cons x rest ih =>
    simp [way_nd_events, wrapper_closes, List.countP_cons, is_wrapper_close] at ih ⊢
    exact ih

theorem wrapper_opens_members (ms : List RelMember) :
    wrapper_opens (relation_member_events ms) = 0 := by
  induction ms with
  | nil => simp [relation_member_events, wrapper_opens]
  | cons x rest ih =>
    simp [relation_member_events, wrapper_opens, List.countP_cons,
          is_wrapper_open] at ih ⊢
    exact ih

theorem wrapper_closes_members (ms : List RelMember) :
    wrapper_closes (relation_member_events ms) = 0 := by
  induction ms with
  | nil => simp [relation_member_events, wrapper_closes]
  | cons x rest ih =>
    simp [relation_member_events, wrapper_closes, List.countP_cons,
          is_wrapper_close] at ih ⊢
    exact ih

theorem emit_record_wrapper (r : Record) (last : Option ChangeOp) :
    wrapper_opens (emit_record FileType.Change r last).1
      = (if some (record_op r) = last then 0 else 1)
    ∧ wrapper_closes (emit_record FileType.Change r last).1
      = (if some (record_op r) = last then 0
         else if last = none then 0 else 1)
    ∧ (emit_record FileType.Change r last).2 = some (record_op r) := by
  rcases r with n | w | rel
  · rcases n with ⟨nm, locd, ntags⟩
    cases locd <;>
      simp [emit_record, XMLOutput_node, record_op,
            wrapper_opens_append, wrapper_closes_append,
            wrapper_opens_cons, wrapper_closes_cons,
            wrapper_opens_nil, wrapper_closes_nil,
            wrapper_opens_write_meta, wrapper_closes_write_meta,
            wrapper_opens_write_tags, wrapper_closes_write_tags,
            op_tag_snd, op_tag_opens_count, op_tag_closes_count,
            is_wrapper_open, is_wrapper_close]
  · simp [emit_record, XMLOutput_way, record_op,
          wrapper_opens_append, wrapper_closes_append,
          wrapper_opens_cons, wrapper_closes_cons,
          wrapper_opens_nil, wrapper_closes_nil,
          wrapper_opens_write_meta, wrapper_closes_write_meta,
          wrapper_opens_write_tags, wrapper_closes_write_tags,
          wrapper_opens_way_nd, wrapper_closes_way_nd,
          op_tag_snd, op_tag_opens_count, op_tag_closes_count,
          is_wrapper_open, is_wrapper_close]
  · simp [emit_record, XMLOutput_relation, record_op,
          wrapper_opens_append, wrapper_closes_append,
          wrapper_opens_cons, wrapper_closes_cons,
          wrapper_opens_nil, wrapper_closes_nil,
          wrapper_opens_write_meta, wrapper_closes_write_meta,
          wrapper_opens_write_tags, wrapper_closes_write_tags,
          wrapper_opens_members, wrapper_closes_members,
          op_tag_snd, op_tag_opens_count, op_tag_closes_count,
          is_wrapper_open, is_wrapper_close]

theorem emit_records_wrapper : ∀ (rs : List Record) (last : Option ChangeOp),
    wrapper_opens (emit_records FileType.Change rs last).1
      = opens_from last (rs.map record_op)
    ∧ wrapper_closes (emit_records FileType.Change rs last).1
      = closes_from last (rs.map record_op)
    ∧ (emit_records FileType.Change rs last).2
      = last_from last (rs.map record_op) := by
  intro rs
  induction rs with
  | nil =>
    intro last
    simp [emit_records, opens_from, closes_from, last_from,
          wrapper_opens_nil, wrapper_closes_nil]
  | cons r rest ih =>
    intro last
    obtain ⟨h1, h2, h3⟩ := emit_record_wrapper r last
    obtain ⟨g1, g2, g3⟩ := ih (emit_record FileType.Change r last).2
    rw [h3] at g1 g2 g3
    refine ⟨?_, ?_, ?_⟩ <;>
      simp [emit_records, wrapper_opens_append, wrapper_closes_append,
            opens_from, closes_from, last_from, h1, h2, h3, g1, g2, g3]

theorem opens_from_some : ∀ (rest : List ChangeOp) (a : ChangeOp),
    opens_from (some a) rest + 1 = run_count (a :: rest) := by
  intro rest
  induction rest with
  | nil => intro a; simp [opens_from, run_count]
  | cons b r2 ih =>
    intro a
    have h := ih b
    rcases eq_or_ne a b with hab | hab
    · subst hab
      simp [opens_from, run_count]
      omega
    · simp [opens_from, run_count, hab, Ne.symm hab]
      omega

theorem opens_from_none (l : List ChangeOp) :
    opens_from none l = run_count l := by
  cases l with
  | nil => simp [opens_from, run_count]
  | cons a rest =>
    have h := opens_from_some rest a
    simp [opens_from]
    omega

theorem closes_balance : ∀ (l : List ChangeOp) (last : Option ChangeOp),
    closes_from last l + (if last_from last l = none then 0 else 1)
      = opens_from last l + (if last = none then 0 else 1) := by
  intro l
  induction l with
  | nil => intro last; simp [closes_from, opens_from, last_from]
  | cons a rest ih =>
    intro last
    have h := ih (some a)
    rcases last with _ | v
    · simp [closes_from, opens_from, last_from] at h ⊢
      omega
    · rcases eq_or_ne a v with hav | hav <;>
        simp [closes_from, opens_from, last_from, hav, Option.some.injEq] at h ⊢ <;>
        omega

theorem wrapper_counts_set_meta : ∀ (ft : FileType) (b : Bool),
    wrapper_opens (XMLOutput_set_meta ft b) = 0
    ∧ wrapper_closes (XMLOutput_set_meta ft b) = 0 := by decide

theorem wrapper_counts_doc_close : ∀ (last : Option ChangeOp),
    wrapper_opens (XMLOutput_close FileType.Change last).1 = 0
    ∧ wrapper_closes (XMLOutput_close FileType.Change last).1
        = (if last = none then 0 else 1) := by decide

/-- C1: for every Change-kind document, over any sequence of emitted
records followed by close, the number of wrapper-open events equals the
number of maximal runs of consecutive same-operation records (so each
wrapper is opened at most once per maximal run), after close the total
number of wrapper-close events equals the total number of wrapper-open
events, and the record sequence with operations create, create, modify,
delete, delete yields exactly 3 wrapper open/close pairs in that order
containing 2, 1 and 2 records. -/
theorem change_grouping_invariant :
    (∀ (bounds : Bool) (rs : List Record),
        wrapper_opens (write_document FileType.Change bounds rs)
          = run_count (rs.map record_op)
        ∧ wrapper_closes (write_document FileType.Change bounds rs)
          = wrapper_opens (write_document FileType.Change bounds rs))
    ∧ group_trace (write_document FileType.Change false example_records)
        = [XmlEvent.start_element "create", XmlEvent.start_element "node",
           XmlEvent.start_element "node", XmlEvent.end_element "create",
           XmlEvent.start_element "modify", XmlEvent.start_element "node",
           XmlEvent.end_element "modify", XmlEvent.start_element "delete",
           XmlEvent.start_element "node", XmlEvent.start_element "node",
           XmlEvent.end_element "delete"] := by
  constructor
  · intro bounds rs
    obtain ⟨e1, e2, e3⟩ := emit_records_wrapper rs none
    obtain ⟨s1, s2⟩ := wrapper_counts_set_meta FileType.Change bounds
    obtain ⟨c1, c2⟩ :=
      wrapper_counts_doc_close (last_from none (rs.map record_op))
    have hbal := closes_balance (rs.map record_op) none
    simp at hbal
    constructor
    · simp [write_document, wrapper_opens_append, e1, e3, s1, c1,
            opens_from_none]
    · simp [write_document, wrapper_opens_append, wrapper_closes_append,
            e1, e2, e3, s1, s2, c1, c2]
      omega
  · decide

/-- C2: the grouping transition open_close_op_tag is a no-op when op
equals the tracked operation of the currently open group; otherwise it
first closes the open wrapper element if one is open, then opens a new
wrapper element named after op when op is not the null operation, and in
every case the tracked operation afterwards equals op. -/
theorem grouping_transition_spec : ∀ (op m_last_op : Option ChangeOp),
    open_close_op_tag op m_last_op
      = (spec_transition_closes op m_last_op
          ++ spec_transition_opens op m_last_op, op) := by decide

/-- C3: for a Change-kind file the operation handed to the grouping
transition by node, way and relation emission is create for a visible
record of version 1, modify for a visible record of version greater
than 1, and delete for an invisible record; for a non-Change kind no
grouping transition happens: the tracked operation is unchanged and no
wrapper events are emitted. -/
theorem change_operation_inference :
    (∀ (o : ObjMeta),
        (o.visible = true → o.version = 1 → change_op o = ChangeOp.create)
        ∧ (o.visible = true → 1 < o.version → change_op o = ChangeOp.modify)
        ∧ (o.visible = false → change_op o = ChangeOp.delete))
    ∧ (∀ (n : Node) (w : Way) (r : Relation) (last : Option ChangeOp),
        (XMLOutput_node FileType.Change n last).2 = some (change_op n.meta)
        ∧ (XMLOutput_way FileType.Change w last).2 = some (change_op w.meta)
        ∧ (XMLOutput_relation FileType.Change r last).2
            = some (change_op r.meta))
    ∧ (∀ (ft : FileType), ft ≠ FileType.Change →
        ∀ (n : Node) (w : Way) (r : Relation) (last : Option ChangeOp),
        ((XMLOutput_node ft n last).2 = last
          ∧ wrapper_opens (XMLOutput_node ft n last).1 = 0
          ∧ wrapper_closes (XMLOutput_node ft n last).1 = 0)
        ∧ ((XMLOutput_way ft w last).2 = last
          ∧ wrapper_opens (XMLOutput_way ft w last).1 = 0
          ∧ wrapper_closes (XMLOutput_way ft w last).1 = 0)
        ∧ ((XMLOutput_relation ft r last).2 = last
          ∧ wrapper_opens (XMLOutput_relation ft r last).1 = 0
          ∧ wrapper_closes (XMLOutput_relation ft r last).1 = 0)) := by
  refine ⟨?_, ?_, ?_⟩
  · intro o
    refine ⟨?_, ?_, ?_⟩ <;> intro h1 <;> (try intro h2) <;>
      simp [change_op, h1] <;> omega
  · intro n w r last
    refine ⟨?_, ?_, ?_⟩ <;>
      simp [XMLOutput_node, XMLOutput_way, XMLOutput_relation, op_tag_snd]
  · intro ft hft n w r last
    rcases n with ⟨nm, locd, ntags⟩
    cases locd <;>
      refine ⟨⟨?_, ?_, ?_⟩, ⟨?_, ?_, ?_⟩, ⟨?_, ?_, ?_⟩⟩ <;>
      simp [XMLOutput_node, XMLOutput_way, XMLOutput_relation, hft,
            wrapper_opens_append, wrapper_closes_append,
            wrapper_opens_cons, wrapper_closes_cons,
            wrapper_opens_nil, wrapper_closes_nil,
            wrapper_opens_write_meta, wrapper_closes_write_meta,
            wrapper_opens_write_tags, wrapper_closes_write_tags,
            wrapper_opens_way_nd, wrapper_closes_way_nd,
            wrapper_opens_members, wrapper_closes_members,
            is_wrapper_open, is_wrapper_close]

/-- C3 witness: concrete instances of the inference mapping with the
hypotheses discharged, and a non-Change emission leaving the tracked
operation unchanged. -/
theorem change_operation_inference_witness :
    change_op (mk_meta 1 true) = ChangeOp.create
    ∧ change_op (mk_meta 3 true) = ChangeOp.modify
    ∧ change_op (mk_meta 1 false) = ChangeOp.delete
    ∧ (XMLOutput_node FileType.OSM
        { meta := mk_meta 1 true, location_defined := false, tags := [] }
        none).2 = none :=
  ⟨((change_operation_inference.1 (mk_meta 1 true)).1 (by decide) (by decide)),
   ((change_operation_inference.1 (mk_meta 3 true)).2.1 (by decide) (by decide)),
   ((change_operation_inference.1 (mk_meta 1 false)).2.2 (by decide)),
   ((change_operation_inference.2.2 FileType.OSM (by decide)
      { meta := mk_meta 1 true, location_defined := false, tags := [] }
      { meta := mk_meta 1 true, nodes := [], tags := [] }
      { meta := mk_meta 1 true, members := [], tags := [] }
      none).1.1)⟩

theorem close_state_childpid (s : OSMFileR) :
    ((if 0 < s.m_fd then { s with m_fd := -1 } else s) : OSMFileR).m_childpid
      = s.m_childpid := by
  split_ifs <;> rfl

theorem close_closed_fds (w : WaitResult) (s : OSMFileR) :
    (OSMFile_close w s).closed_fds
      = (if 0 < s.m_fd then [s.m_fd] else []) := by
  simp only [OSMFile_close]
  split_ifs <;> rcases w with _ | c | _ <;> (try rcases c with _ | c) <;> rfl

theorem close_state_fd (w : WaitResult) (s : OSMFileR) :
    (OSMFile_close w s).state.m_fd = (if 0 < s.m_fd then -1 else s.m_fd) := by
  simp only [OSMFile_close]
  split_ifs <;> rcases w with _ | c | _ <;> (try rcases c with _ | c) <;> rfl

theorem close_state_childpid_eq (w : WaitResult) (s : OSMFileR) :
    (OSMFile_close w s).state.m_childpid
      = (if w = WaitResult.exited 0 then 0 else s.m_childpid) := by
  have hch := close_state_childpid s
  simp only [OSMFile_close]
  rcases w with _ | c | _ <;> (try rcases c with _ | c) <;>
    split_ifs <;> simp_all

theorem close_io_error_iff (w : WaitResult) (s : OSMFileR) :
    (OSMFile_close w s).io_error = true
      ↔ (s.m_childpid ≠ 0 ∧ w ≠ WaitResult.exited 0) := by
  have hch := close_state_childpid s
  simp only [OSMFile_close]
  rcases w with _ | c | _ <;> (try rcases c with _ | c) <;>
    split_ifs <;> simp_all

theorem close_noop (w : WaitResult) (st : OSMFileR)
    (hfd : ¬ 0 < st.m_fd) (hch : st.m_childpid = 0) :
    OSMFile_close w st
      = { state := st, closed_fds := [], io_error := false } := by
  simp only [OSMFile_close]
  simp [hfd, hch]

/-- C4 counterexample: a handle with descriptor 3 and child pid 42 whose
child exits with status 1. The first close reports the error but leaves
the child pid recorded, and a second close is not a no-op: it fails
again. This refutes the reading that the child identifier is cleared
regardless of the exit status. -/
theorem close_failed_keeps_childpid :
    (OSMFile_close (WaitResult.exited 1)
        { m_type := FileType.OSM, m_encoding := Encoding.XMLgz,
          m_filename := "a.osm.gz", m_fd := 3, m_childpid := 42 }).io_error
      = true
    ∧ (OSMFile_close (WaitResult.exited 1)
        { m_type := FileType.OSM, m_encoding := Encoding.XMLgz,
          m_filename := "a.osm.gz", m_fd := 3, m_childpid := 42 }).state.m_childpid
      = 42
    ∧ (OSMFile_close (WaitResult.exited 1)
        ((OSMFile_close (WaitResult.exited 1)
          { m_type := FileType.OSM, m_encoding := Encoding.XMLgz,
            m_filename := "a.osm.gz", m_fd := 3, m_childpid := 42 }).state)).io_error
      = true := by decide

/-- C4 amended: close releases a valid (strictly positive) descriptor
exactly once and a second close never releases a descriptor again; when a
child pid is recorded it is cleared exactly when the wait reports a
normal exit with status 0, so after a successful close a second close is
a complete no-op, while after a failed close the child pid remains
recorded. -/
theorem close_idempotent_amended (s : OSMFileR) (w w2 : WaitResult) :
    (OSMFile_close w s).closed_fds = (if 0 < s.m_fd then [s.m_fd] else [])
    ∧ (OSMFile_close w2 (OSMFile_close w s).state).closed_fds = []
    ∧ (s.m_childpid ≠ 0 →
        ((OSMFile_close w s).state.m_childpid = 0
          ↔ w = WaitResult.exited 0))
    ∧ ((OSMFile_close w s).io_error = false →
        OSMFile_close w2 (OSMFile_close w s).state
          = { state := (OSMFile_close w s).state, closed_fds := [],
              io_error := false }) := by
  have hfd1 : ¬ 0 < (OSMFile_close w s).state.m_fd := by
    rw [close_state_fd]
    split_ifs with h <;> omega
  refine ⟨close_closed_fds w s, ?_, ?_, ?_⟩
  · rw [close_closed_fds, if_neg hfd1]
  · intro hch
    rw [close_state_childpid_eq]
    split_ifs with hw <;> simp [hw, hch]
  · intro herr
    have hch0 : (OSMFile_close w s).state.m_childpid = 0 := by
      rw [close_state_childpid_eq]
      split_ifs with hw
      · rfl
      · by_contra hne
        have := (close_io_error_iff w s).2 ⟨hne, hw⟩
        rw [herr] at this
        exact Bool.false_ne_true this
    exact close_noop w2 _ hfd1 hch0

/-- C4 witness: at a handle with descriptor 5 and child pid 9 whose
child exits 0, the cleared child pid and the no-op second close are
realized, with both hypotheses discharged concretely. -/
theorem close_idempotent_amended_witness :
    ((OSMFile_close (WaitResult.exited 0)
        { m_type := FileType.OSM, m_encoding := Encoding.XMLbz2,
          m_filename := "b.osm.bz2", m_fd := 5, m_childpid := 9 }).state.m_childpid
      = 0 ↔ WaitResult.exited 0 = WaitResult.exited 0)
    ∧ OSMFile_close (WaitResult.exited 0)
        (OSMFile_close (WaitResult.exited 0)
          { m_type := FileType.OSM, m_encoding := Encoding.XMLbz2,
            m_filename := "b.osm.bz2", m_fd := 5, m_childpid := 9 }).state
      = { state := (OSMFile_close (WaitResult.exited 0)
            { m_type := FileType.OSM, m_encoding := Encoding.XMLbz2,
              m_filename := "b.osm.bz2", m_fd := 5, m_childpid := 9 }).state,
          closed_fds := [], io_error := false } :=
  ⟨(close_idempotent_amended
      { m_type := FileType.OSM, m_encoding := Encoding.XMLbz2,
        m_filename := "b.osm.bz2", m_fd := 5, m_childpid := 9 }
      (WaitResult.exited 0) (WaitResult.exited 0)).2.2.1 (by decide),
   (close_idempotent_amended
      { m_type := FileType.OSM, m_encoding := Encoding.XMLbz2,
        m_filename := "b.osm.bz2", m_fd := 5, m_childpid := 9 }
      (WaitResult.exited 0) (WaitResult.exited 0)).2.2.2 (by decide)⟩

/-- C5: with a recorded child process and a wait that reports the child
termination, an explicit close fails with an IOError exactly when the
child exits with a non-zero status or terminates abnormally, and
succeeds when the child exits with status 0. -/
theorem close_child_exit_status (s : OSMFileR) (w : WaitResult)
    (hchild : s.m_childpid ≠ 0) (_hw : w ≠ WaitResult.failed) :
    ((OSMFile_close w s).io_error = true ↔ w ≠ WaitResult.exited 0) := by
  rw [close_io_error_iff]
  exact ⟨fun h => h.2, fun h => ⟨hchild, h⟩⟩

/-- C5 witness: a child exiting with status 2 makes close fail, a child
exiting with status 0 makes it succeed. -/
theorem close_child_exit_status_witness :
    ((OSMFile_close (WaitResult.exited 2)
        { m_type := FileType.Change, m_encoding := Encoding.XMLgz,
          m_filename := "c.osc.gz", m_fd := 6, m_childpid := 11 }).io_error
      = true ↔ WaitResult.exited 2 ≠ WaitResult.exited 0)
    ∧ ((OSMFile_close (WaitResult.exited 0)
        { m_type := FileType.Change, m_encoding := Encoding.XMLgz,
          m_filename := "c.osc.gz", m_fd := 6, m_childpid := 11 }).io_error
      = true ↔ WaitResult.exited 0 ≠ WaitResult.exited 0) :=
  ⟨close_child_exit_status
      { m_type := FileType.Change, m_encoding := Encoding.XMLgz,
        m_filename := "c.osc.gz", m_fd := 6, m_childpid := 11 }
      (WaitResult.exited 2) (by decide) (by decide),
   close_child_exit_status
      { m_type := FileType.Change, m_encoding := Encoding.XMLgz,
        m_filename := "c.osc.gz", m_fd := 6, m_childpid := 11 }
      (WaitResult.exited 0) (by decide) (by decide)⟩

/-- C6: every suffix of the fixed table resolves to its documented kind
and encoding, and every other suffix resolves to the plain-file default
of OSM kind with PBF encoding. -/
theorem suffix_table_resolution :
    (set_type_and_encoding "pbf" = (FileType.OSM, Encoding.PBF)
     ∧ set_type_and_encoding "osm.pbf" = (FileType.OSM, Encoding.PBF)
     ∧ set_type_and_encoding "osm" = (FileType.OSM, Encoding.XML)
     ∧ set_type_and_encoding "osm.bz2" = (FileType.OSM, Encoding.XMLbz2)
     ∧ set_type_and_encoding "osm.gz" = (FileType.OSM, Encoding.XMLgz)
     ∧ set_type_and_encoding "osm.opl" = (FileType.OSM, Encoding.OPL)
     ∧ set_type_and_encoding "osm.opl.bz2" = (FileType.OSM, Encoding.OPLbz2)
     ∧ set_type_and_encoding "osm.opl.gz" = (FileType.OSM, Encoding.OPLgz)
     ∧ set_type_and_encoding "osh.pbf" = (FileType.History, Encoding.PBF)
     ∧ set_type_and_encoding "osh" = (FileType.History, Encoding.XML)
     ∧ set_type_and_encoding "osh.bz2" = (FileType.History, Encoding.XMLbz2)
     ∧ set_type_and_encoding "osh.gz" = (FileType.History, Encoding.XMLgz)
     ∧ set_type_and_encoding "osc" = (FileType.Change, Encoding.XML)
     ∧ set_type_and_encoding "osc.bz2" = (FileType.Change, Encoding.XMLbz2)
     ∧ set_type_and_encoding "osc.gz" = (FileType.Change, Encoding.XMLgz))
    ∧ (∀ suffix : String, suffix ∉ suffix_table →
        set_type_and_encoding suffix = default_settings_for_file) := by
  constructor
  · decide
  · intro sfx hs
    simp only [suffix_table, List.mem_cons, List.mem_singleton, not_or,
               List.not_mem_nil] at hs
    obtain ⟨h1, h2, h3, h4, h5, h6, h7, h8, h9, h10, h11, h12, h13, h14,
            h15⟩ := hs
    simp [set_type_and_encoding, h1, h2, h3, h4, h5, h6, h7, h8, h9, h10,
          h11, h12, h13, h14, h15]

/-- C6 witness: a suffix outside the table resolves to the plain-file
default. -/
theorem suffix_table_resolution_witness :
    set_type_and_encoding "xyz" = default_settings_for_file :=
  suffix_table_resolution.2 "xyz" (by decide)

theorem attr_not_mem_op_tag (a : String) (op last : Option ChangeOp) :
    XmlEvent.attribute a ∉ (open_close_op_tag op last).1 := by
  simp only [open_close_op_tag]
  split_ifs
  · simp
  · rcases op with _ | o <;> rcases last with _ | l <;> simp

theorem attr_mem_write_tags_iff (a : String) (ts : List (String × String)) :
    XmlEvent.attribute a ∈ write_tags ts ↔ ts ≠ [] ∧ (a = "k" ∨ a = "v") := by
  induction ts with
  | nil => simp [write_tags]
  | cons t rest ih => simp [write_tags, ih] <;> tauto

theorem attr_mem_way_nd_iff (a : String) (ns : List Int) :
    XmlEvent.attribute a ∈ way_nd_events ns ↔ ns ≠ [] ∧ a = "ref" := by
  induction ns with
  | nil => simp [way_nd_events]
  | cons x rest ih => simp [way_nd_events, ih] <;> tauto

theorem attr_mem_members_iff (a : String) (ms : List RelMember) :
    XmlEvent.attribute a ∈ relation_member_events ms
      ↔ ms ≠ [] ∧ (a = "type" ∨ a = "ref" ∨ a = "role") := by
  induction ms with
  | nil => simp [relation_member_events]
  | cons x rest ih => simp [relation_member_events, ih] <;> tauto

/-- C7: the changeset attribute is emitted exactly when the changeset
field is nonzero, the uid and user attributes exactly when uid is
positive, and the lat and lon attributes of a node exactly when its
location is defined, for every record kind and file type. -/
theorem attribute_omission (ft : FileType) (n : Node) (w : Way)
    (r : Relation) (last : Option ChangeOp) :
    (XmlEvent.attribute "changeset" ∈ (XMLOutput_node ft n last).1
      ↔ n.meta.changeset ≠ 0)
    ∧ (XmlEvent.attribute "uid" ∈ (XMLOutput_node ft n last).1
      ↔ 0 < n.meta.uid)
    ∧ (XmlEvent.attribute "user" ∈ (XMLOutput_node ft n last).1
      ↔ 0 < n.meta.uid)
    ∧ (XmlEvent.attribute "lat" ∈ (XMLOutput_node ft n last).1
      ↔ n.location_defined = true)
    ∧ (XmlEvent.attribute "lon" ∈ (XMLOutput_node ft n last).1
      ↔ n.location_defined = true)
    ∧ (XmlEvent.attribute "changeset" ∈ (XMLOutput_way ft w last).1
      ↔ w.meta.changeset ≠ 0)
    ∧ (XmlEvent.attribute "uid" ∈ (XMLOutput_way ft w last).1
      ↔ 0 < w.meta.uid)
    ∧ (XmlEvent.attribute "user" ∈ (XMLOutput_way ft w last).1
      ↔ 0 < w.meta.uid)
    ∧ (XmlEvent.attribute "changeset" ∈ (XMLOutput_relation ft r last).1
      ↔ r.meta.changeset ≠ 0)
    ∧ (XmlEvent.attribute "uid" ∈ (XMLOutput_relation ft r last).1
      ↔ 0 < r.meta.uid)
    ∧ (XmlEvent.attribute "user" ∈ (XMLOutput_relation ft r last).1
      ↔ 0 < r.meta.uid) := by
  refine ⟨?_, ?_, ?_, ?_, ?_, ?_, ?_, ?_, ?_, ?_, ?_⟩ <;> cases ft <;>
    simp [XMLOutput_node, XMLOutput_way, XMLOutput_relation, write_meta,
          attr_not_mem_op_tag, attr_mem_write_tags_iff,
          attr_mem_way_nd_iff, attr_mem_members_iff]

/-- C8: the visible attribute is emitted exactly when the file type has
multiple object versions and is not the Change type, which holds exactly
for the History type; Plain and Change records never carry it, whatever
their visibility flag. -/
theorem visible_attribute (ft : FileType) (n : Node) (w : Way)
    (r : Relation) (last : Option ChangeOp) :
    (XmlEvent.attribute "visible" ∈ (XMLOutput_node ft n last).1
      ↔ (ft.has_multiple_object_versions = true ∧ ft ≠ FileType.Change))
    ∧ (XmlEvent.attribute "visible" ∈ (XMLOutput_node ft n last).1
      ↔ ft = FileType.History)
    ∧ (XmlEvent.attribute "visible" ∈ (XMLOutput_way ft w last).1
      ↔ ft = FileType.History)
    ∧ (XmlEvent.attribute "visible" ∈ (XMLOutput_relation ft r last).1
      ↔ ft = FileType.History) := by
  refine ⟨?_, ?_, ?_, ?_⟩ <;> cases ft <;>
    simp [XMLOutput_node, XMLOutput_way, XMLOutput_relation, write_meta,
          FileType.has_multiple_object_versions,
          attr_not_mem_op_tag, attr_mem_write_tags_iff,
          attr_mem_way_nd_iff, attr_mem_members_iff]

theorem find_first_aux_eq_none (c : Char) :
    ∀ (l : List Char), c ∉ l → find_first_aux c l = none := by
  intro l
  induction l with
  | nil => intro h; rfl
  | cons x rest ih =>
    intro h
    simp only [List.mem_cons, not_or] at h
    have hxc : ¬ x = c := fun he => h.1 he.symm
    simp [find_first_aux, hxc, ih h.2]

theorem isolate_suffix_no_dot (l : List Char)
    (h : ('.' : Char) ∉ l.drop (after_last_slash l)) :
    isolate_suffix l = l := by
  simp [isolate_suffix, find_first_of_from, find_first_aux_eq_none '.' _ h]

/-- C9: a non-empty, non-URL filename with no dot after its last slash
gets its entire text used as the suffix (npos plus one wraps to zero), so
the whole filename is looked up in the table; in particular the bare
filename osc resolves to the Change kind with the XML encoding. -/
theorem bare_filename_suffix :
    (∀ (filename : String), filename ≠ "" →
        protocol_of filename.data ≠ "http".data →
        protocol_of filename.data ≠ "https".data →
        ('.' : Char) ∉ filename.data.drop (after_last_slash filename.data) →
        isolate_suffix filename.data = filename.data
        ∧ (OSMFile_init filename).m_type = (set_type_and_encoding filename).1
        ∧ (OSMFile_init filename).m_encoding
            = (set_type_and_encoding filename).2)
    ∧ (OSMFile_init "osc").m_type = FileType.Change
    ∧ (OSMFile_init "osc").m_encoding = Encoding.XML := by
  refine ⟨?_, by decide, by decide⟩
  intro fn h0 h1 h2 h3
  have hiso := isolate_suffix_no_dot fn.data h3
  have hmk : String.mk fn.data = fn := rfl
  refine ⟨hiso, ?_, ?_⟩ <;>
  · by_cases hdash : fn = "-"
    · subst hdash
      decide
    · simp [OSMFile_init, h0, hdash, h1, h2, hiso, hmk]

/-- C9 witness: the universal part applied at the bare filename osc. -/
theorem bare_filename_suffix_witness :
    isolate_suffix "osc".data = "osc".data
    ∧ (OSMFile_init "osc").m_type = (set_type_and_encoding "osc").1
    ∧ (OSMFile_init "osc").m_encoding = (set_type_and_encoding "osc").2 :=
  bare_filename_suffix.1 "osc" (by decide) (by decide) (by decide) (by decide)

/-- C10: close releases the stored descriptor only when it is strictly
positive; a handle opened for input on the empty path gets descriptor 0,
which close leaves untouched, while a handle opened for output on the
empty path gets descriptor 1, which close actually releases. -/
theorem stdio_descriptor_close (env : IOEnv) (w : WaitResult) :
    (∀ (s : OSMFileR), (OSMFile_close w s).closed_fds
        = (if 0 < s.m_fd then [s.m_fd] else []))
    ∧ (∃ s1, open_for_input env (OSMFile_init "") = Except.ok s1
        ∧ s1.m_fd = 0
        ∧ (OSMFile_close w s1).closed_fds = []
        ∧ (OSMFile_close w s1).state.m_fd = 0)
    ∧ (∃ s2, open_for_output env (OSMFile_init "") = Except.ok s2
        ∧ s2.m_fd = 1
        ∧ (OSMFile_close w s2).closed_fds = [1]
        ∧ (OSMFile_close w s2).state.m_fd = -1) := by
  refine ⟨fun s => close_closed_fds w s,
    ⟨{ m_type := FileType.OSM, m_encoding := Encoding.PBF,
       m_filename := "", m_fd := 0, m_childpid := 0 }, ?_, rfl, ?_, ?_⟩,
    ⟨{ m_type := FileType.OSM, m_encoding := Encoding.PBF,
       m_filename := "", m_fd := 1, m_childpid := 0 }, ?_, rfl, ?_, ?_⟩⟩
  · simp [open_for_input, OSMFile_init, open_input_file_or_url,
          open_input_file, protocol_of, Encoding.decompress,
          default_settings_for_stdinout, Except.map]
  · rw [close_closed_fds]
    rfl
  · rw [close_state_fd]
    rfl
  · simp [open_for_output, OSMFile_init, open_output_file,
          Encoding.compress, default_settings_for_stdinout, Except.map]
  · rw [close_closed_fds]
    rfl
  · rw [close_state_fd]
    rfl

end Osmium
